import Mathlib

/-!
# Verification of `opt-gsoc-nr-channel-models-error.cc`

A shallow embedding of the scenario-orchestration logic of the ns-3 NR
example `src/work/Simulation/opt-gsoc-nr-channel-models-error.cc`, together
with theorems about its behaviour.  Pure configuration decisions (channel
dispatch, AMC dispatch, CLI registration order, terminal placement and
velocity assignment, random-stream assignment, setup/run phase ordering)
are translated into Lean functions; external ns-3 collaborators (the TypeId
registry, per-device random-stream consumption, the event-driven simulator)
appear as explicit parameters.
-/

namespace GsocNrChannelModels

/-- 3D vector, embedding ns-3 `Vector3D` with rational coordinates. -/
structure Vec3 where
  x : Rat
  y : Rat
  z : Rat
deriving DecidableEq, Repr

/-- UE (terminal) height in metres, set via `hexGrid.SetUtHeight(1.5)`. -/
def utHeight : Rat := 3 / 2

/-- gNB (base-station) height in metres, set via `hexGrid.SetBsHeight(25)`. -/
def bsHeight : Rat := 25

/-- The UE node list produced by the hexagonal-grid collaborator after
`SetUtNumber(numUes)`: one node per index. -/
def ueNodes (numUes : Nat) : List Nat := List.range numUes

/-- Position override applied to UE `i` in the placement loop
(source lines 192-210): the loop starts from `(10, 20, 1.5)` and, for
`i > 0`, overwrites `x` with `50*i` and `y` with `30*(+1 if i even else -1)`. -/
def uePosition (i : Nat) : Vec3 :=
  let base : Vec3 := ⟨10, 20, 3 / 2⟩
  if i > 0 then
    { base with x := 50 * (i : Rat), y := 30 * (if i % 2 = 0 then (1 : Rat) else -1) }
  else base

/-- Velocity assigned to UE `i` in the mobility loop (source lines 212-219):
`speed = 1.0 + i * 3.0`, velocity `(speed, (i even ? 1 : -1) * speed, 0)`. -/
def ueVelocity (i : Nat) : Vec3 :=
  let speed : Rat := 1 + (i : Rat) * 3
  ⟨speed, (if i % 2 = 0 then (1 : Rat) else -1) * speed, 0⟩

/-- One mobility-model mutation performed during setup. -/
inductive MobEvent
  | setPosition (i : Nat) (p : Vec3)
  | setVelocity (i : Nat) (v : Vec3)
deriving DecidableEq, Repr

/-- The placement-override loop (source lines 192-210): one `SetPosition`
per UE index, in index order. -/
def placementOverrideEvents (numUes : Nat) : List MobEvent :=
  (ueNodes numUes).map fun i => MobEvent.setPosition i (uePosition i)

/-- The velocity-assignment loop (source lines 212-219): one `SetVelocity`
per UE index, in index order. -/
def velocityAssignEvents (numUes : Nat) : List MobEvent :=
  (ueNodes numUes).map fun i => MobEvent.setVelocity i (ueVelocity i)

/-- All mobility mutations the setup phase performs on the terminals, in
program order: the placement loop, then the velocity loop. -/
def mobilitySetupEvents (numUes : Nat) : List MobEvent :=
  placementOverrideEvents numUes ++ velocityAssignEvents numUes

/-- Recognizer for a position mutation of terminal `i`. -/
def isSetPositionOf (i : Nat) : MobEvent → Bool
  | MobEvent.setPosition j _ => j == i
  | MobEvent.setVelocity _ _ => false

/-- Recognizer for a velocity mutation of terminal `i`. -/
def isSetVelocityOf (i : Nat) : MobEvent → Bool
  | MobEvent.setPosition _ _ => false
  | MobEvent.setVelocity j _ => j == i

/-- Antenna element type configured on a device side. -/
inductive AntennaElement
  | isotropic
  | parabolic
deriving DecidableEq, Repr

/-- Beamforming method; the phased-array branch installs
`DirectPathBeamforming` (source lines 270-271). -/
inductive BeamformingMethod
  | directPath
deriving DecidableEq, Repr

/-- The configuration bundle produced by the phased-array branch of the
channel dispatch (source lines 252-284). -/
structure PhasedArrayConfig where
  ueNumRows : Nat
  ueNumCols : Nat
  gnbNumRows : Nat
  gnbNumCols : Nat
  ueElement : AntennaElement
  gnbElement : AntennaElement
  beamforming : BeamformingMethod
  shadowingEnabled : Bool
  conditionUpdatePeriodMs : Option Nat
  model : String
  condition : String
  scenario : String
deriving DecidableEq, Repr

/-- The configuration bundle produced by the Friis branch of the channel
dispatch (source lines 285-292). -/
structure NonPhasedConfig where
  ueAntennaType : AntennaElement
  gnbAntennaType : AntennaElement
  propagationFactory : String
deriving DecidableEq, Repr

/-- The channel-model configuration: a tagged variant over the phased-array
and non-phased bundles. -/
inductive ChannelConfig
  | phased (c : PhasedArrayConfig)
  | nonPhased (c : NonPhasedConfig)
deriving DecidableEq, Repr

/-- The bundle built by the `ThreeGpp`/`NYU`/`TwoRay` branch: array
dimensions from `ueNumRows=1, ueNumCols=1, gnbNumRows=4, gnbNumCols=8`
(source lines 177-180), isotropic elements on both sides, direct-path
beamforming, `ShadowingEnabled` true, and the channel-condition
`UpdatePeriod` set to 100 ms exactly for `Default`/`Buildings`
(source lines 264-268). -/
def phasedBundle (channelModel channelConditionModel : String) : PhasedArrayConfig :=
  { ueNumRows := 1
    ueNumCols := 1
    gnbNumRows := 4
    gnbNumCols := 8
    ueElement := AntennaElement.isotropic
    gnbElement := AntennaElement.isotropic
    beamforming := BeamformingMethod.directPath
    shadowingEnabled := true
    conditionUpdatePeriodMs :=
      if channelConditionModel = "Default" ∨ channelConditionModel = "Buildings" then
        some 100
      else
        none
    model := channelModel
    condition := channelConditionModel
    scenario := "UMa" }

/-- The bundle built by the Friis branch: `ParabolicAntennaModel` on both
sides and the Friis propagation-loss factory (source lines 285-292). -/
def friisBundle : NonPhasedConfig :=
  { ueAntennaType := AntennaElement.parabolic
    gnbAntennaType := AntennaElement.parabolic
    propagationFactory := "ns3::FriisPropagationLossModel" }

/-- The channel-model dispatch (source lines 252-297): phased-array bundle
for `ThreeGpp`/`NYU`/`TwoRay`, Friis bundle for `Friis`, and
`NS_FATAL_ERROR` for everything else. -/
def configureChannel (channelModel channelConditionModel : String) :
    Except String ChannelConfig :=
  if channelModel = "ThreeGpp" ∨ channelModel = "NYU" ∨ channelModel = "TwoRay" then
    Except.ok (ChannelConfig.phased (phasedBundle channelModel channelConditionModel))
  else if channelModel = "Friis" then
    Except.ok (ChannelConfig.nonPhased friisBundle)
  else
    Except.error ("Invalid channel model: " ++ channelModel ++
      ". Choose among ThreeGpp, NYU, TwoRay, Friis.")

/-- The AMC link-adaptation model. -/
inductive AmcModel
  | errorModel
  | shannonModel
deriving DecidableEq, Repr

/-- The global `ns3::NrAmc::AmcModel` default dispatch (source lines
229-240): `ErrorModel` and `ShannonModel` are accepted, anything else is
`NS_FATAL_ERROR`. -/
def configureAmcDefault (amcSelectionModel : String) : Except String AmcModel :=
  if amcSelectionModel = "ErrorModel" then
    Except.ok AmcModel.errorModel
  else if amcSelectionModel = "ShannonModel" then
    Except.ok AmcModel.shannonModel
  else
    Except.error ("Invalid amcSelectionModel: " ++ amcSelectionModel)

/-- The per-gNB DL/UL `AmcModel` attribute configuration (source lines
319-329): an if/else-if with no final else, so an unmatched string leaves
the attribute unset (`none`). -/
def setGnbAmcAttribute (amcSelectionModel : String) : Option AmcModel :=
  if amcSelectionModel = "ErrorModel" then
    some AmcModel.errorModel
  else if amcSelectionModel = "ShannonModel" then
    some AmcModel.shannonModel
  else
    none

/-- `TypeId::LookupByName` over the collaborator registry (source lines
227-228); a name absent from the registry is a fatal lookup error. -/
def lookupTypeId (registry : List String) (name : String) : Except String Unit :=
  if name ∈ registry then Except.ok () else Except.error ("TypeId not found: " ++ name)

/-- All run parameters of the program (source lines 102-125), with their
source defaults captured by `defaultParams`. -/
structure Params where
  rngSeed : Nat
  rngRun : Nat
  channelModel : String
  channelConditionModel : String
  numUes : Nat
  numGnbs : Nat
  frequency : Rat
  logging : Bool
  errorModelType : String
  amcSelectionModel : String
deriving DecidableEq, Repr

/-- The initial values of the run parameters (source lines 102-125). -/
def defaultParams : Params :=
  { rngSeed := 1
    rngRun := 1
    channelModel := "ThreeGpp"
    channelConditionModel := "Default"
    numUes := 4
    numGnbs := 1
    frequency := 30500000000
    logging := true
    errorModelType := "ns3::NrEesmCcT1"
    amcSelectionModel := "ErrorModel" }

/-- Names registered with `CommandLine` before `cmd.Parse` runs (source
lines 129-143; `cmd.Parse` is line 144). -/
def registeredBeforeParse : List String :=
  ["seed", "run", "channelModel", "channelConditionModel", "ueNum", "gNbNum",
   "frequency", "logging"]

/-- Names registered with `CommandLine` only after `cmd.Parse` has already
run (source lines 150-155). -/
def registeredAfterParse : List String :=
  ["errorModelType", "amcSelectionModel"]

/-- A typed command-line argument `--name=value`. -/
inductive CliArg
  | seed (v : Nat)
  | run (v : Nat)
  | channelModel (v : String)
  | channelConditionModel (v : String)
  | ueNum (v : Nat)
  | gNbNum (v : Nat)
  | frequency (v : Rat)
  | logging (v : Bool)
  | errorModelType (v : String)
  | amcSelectionModel (v : String)
deriving DecidableEq, Repr

/-- The flag name of a command-line argument. -/
def CliArg.name : CliArg → String
  | CliArg.seed _ => "seed"
  | CliArg.run _ => "run"
  | CliArg.channelModel _ => "channelModel"
  | CliArg.channelConditionModel _ => "channelConditionModel"
  | CliArg.ueNum _ => "ueNum"
  | CliArg.gNbNum _ => "gNbNum"
  | CliArg.frequency _ => "frequency"
  | CliArg.logging _ => "logging"
  | CliArg.errorModelType _ => "errorModelType"
  | CliArg.amcSelectionModel _ => "amcSelectionModel"

/-- The update a command-line argument makes to the run parameters when the
parser accepts it. -/
def applyCliArg (p : Params) : CliArg → Params
  | CliArg.seed v => { p with rngSeed := v }
  | CliArg.run v => { p with rngRun := v }
  | CliArg.channelModel v => { p with channelModel := v }
  | CliArg.channelConditionModel v => { p with channelConditionModel := v }
  | CliArg.ueNum v => { p with numUes := v }
  | CliArg.gNbNum v => { p with numGnbs := v }
  | CliArg.frequency v => { p with frequency := v }
  | CliArg.logging v => { p with logging := v }
  | CliArg.errorModelType v => { p with errorModelType := v }
  | CliArg.amcSelectionModel v => { p with amcSelectionModel := v }

/-- `cmd.Parse(argc, argv)` (source line 144): each supplied argument whose
name was registered before the parse updates the corresponding parameter;
an argument whose name is not yet registered is rejected as invalid
(ns-3 `CommandLine` aborts on unknown options). -/
def parseCli (args : List CliArg) : Except String Params :=
  args.foldlM
    (fun p a =>
      if CliArg.name a ∈ registeredBeforeParse then
        Except.ok (applyCliArg p a)
      else
        Except.error ("Invalid argument: " ++ CliArg.name a))
    defaultParams

/-- Starting random-stream offsets for a list of devices: the first device
starts at `start`, each later one after the streams the previous devices
consumed (ns-3 `AssignStreams` semantics; counts are collaborator data). -/
def deviceStreamOffsets (counts : List Nat) (start : Nat) : List Nat :=
  match counts with
  | [] => []
  | c :: rest => start :: deviceStreamOffsets rest (start + c)

/-- The per-device random-stream counts of the gNB devices: one entry per
gNB, given by the collaborator function `fg` of the channel model. -/
def gnbStreamCounts (fg : String → Nat → Nat) (p : Params) : List Nat :=
  (List.range p.numGnbs).map (fg p.channelModel)

/-- The per-device random-stream counts of the UE devices. -/
def ueStreamCounts (fu : String → Nat → Nat) (p : Params) : List Nat :=
  (List.range p.numUes).map (fu p.channelModel)

/-- Random-stream offsets of the gNB devices: `randomStream` starts at 1
(source line 102) and the gNB container is assigned first (line 334). -/
def gnbStreamOffsets (fg : String → Nat → Nat) (p : Params) : List Nat :=
  deviceStreamOffsets (gnbStreamCounts fg p) 1

/-- Random-stream offsets of the UE devices: assigned after the gNB
devices, starting past every stream they consumed (source line 335). -/
def ueStreamOffsets (fg fu : String → Nat → Nat) (p : Params) : List Nat :=
  deviceStreamOffsets (ueStreamCounts fu p) (1 + (gnbStreamCounts fg p).sum)

/-- Observable milestones of one execution, in program order. -/
inductive Event
  | amcDefaultSet (m : AmcModel)
  | channelConfigured (c : ChannelConfig)
  | devicesInstalled (gnb ue : Nat)
  | streamsAssigned (gnbOffsets ueOffsets : List Nat)
  | tracesEnabled
  | seeded (seed run : Nat)
  | running
  | completed
  | destroyed
deriving DecidableEq, Repr

/-- Recognizer for the device-installation milestone. -/
def Event.isDevicesInstalled : Event → Bool
  | Event.devicesInstalled _ _ => true
  | _ => false

/-- Whether a setup step ended in `NS_FATAL_ERROR`. -/
def isFatal : Except String Unit → Bool
  | Except.error _ => true
  | Except.ok _ => false

/-- The execution pipeline of `main` after CLI parsing, as the trace of
milestones reached and the final outcome.  Step order follows the source:
error-model TypeId lookup (line 227-228), AMC default dispatch (229-240),
channel dispatch (252-297), device installation (331-332), stream
assignment (334-335), trace enabling (385-388), seeding (391-392), the
event loop (396), and teardown (404).  Any `NS_FATAL_ERROR` aborts the
pipeline at its step. -/
def runProgram (registry : List String) (fg fu : String → Nat → Nat) (p : Params) :
    List Event × Except String Unit :=
  match lookupTypeId registry p.errorModelType with
  | Except.error e => ([], Except.error e)
  | Except.ok _ =>
    match configureAmcDefault p.amcSelectionModel with
    | Except.error e => ([], Except.error e)
    | Except.ok amc =>
      match configureChannel p.channelModel p.channelConditionModel with
      | Except.error e => ([Event.amcDefaultSet amc], Except.error e)
      | Except.ok cc =>
        ([Event.amcDefaultSet amc,
          Event.channelConfigured cc,
          Event.devicesInstalled p.numGnbs p.numUes,
          Event.streamsAssigned (gnbStreamOffsets fg p) (ueStreamOffsets fg fu p),
          Event.tracesEnabled,
          Event.seeded p.rngSeed p.rngRun,
          Event.running,
          Event.completed,
          Event.destroyed],
         Except.ok ())

/-- A fixed collaborator stream-count function used to instantiate
hypotheses at concrete inputs: every device consumes one stream. -/
def unitStreams : String → Nat → Nat := fun _ _ => 1

/-- A fixed collaborator flow-statistics function used to instantiate
hypotheses at concrete inputs. -/
def statsStub : Nat → Nat → String → List Nat → List Nat → List Nat :=
  fun _ _ _ _ _ => []

/-- Concrete parameters with an unsupported channel model, used to
instantiate hypotheses at a concrete input. -/
def badChannelParams : Params :=
  { defaultParams with channelModel := "Rayleigh" }

/-! ## Helper lemmas -/

theorem configureChannel_phased (m cond : String)
    (hm : m = "ThreeGpp" ∨ m = "NYU" ∨ m = "TwoRay") :
    configureChannel m cond = Except.ok (ChannelConfig.phased (phasedBundle m cond)) := by
  unfold configureChannel
  rw [if_pos hm]

theorem configureChannel_friis (cond : String) :
    configureChannel "Friis" cond = Except.ok (ChannelConfig.nonPhased friisBundle) := by
  unfold configureChannel
  rw [if_neg (by decide), if_pos rfl]

theorem configureChannel_invalid (m cond : String)
    (hm : m ∉ (["ThreeGpp", "NYU", "TwoRay", "Friis"] : List String)) :
    configureChannel m cond = Except.error ("Invalid channel model: " ++ m ++
      ". Choose among ThreeGpp, NYU, TwoRay, Friis.") := by
  simp only [List.mem_cons, List.not_mem_nil, or_false, not_or] at hm
  obtain ⟨h1, h2, h3, h4⟩ := hm
  unfold configureChannel
  rw [if_neg (by tauto), if_neg h4]

theorem configureAmcDefault_ok_cases {s : String} {d : AmcModel}
    (h : configureAmcDefault s = Except.ok d) :
    s = "ErrorModel" ∨ s = "ShannonModel" := by
  by_cases h1 : s = "ErrorModel"
  · exact Or.inl h1
  · by_cases h2 : s = "ShannonModel"
    · exact Or.inr h2
    · unfold configureAmcDefault at h
      rw [if_neg h1, if_neg h2] at h
      exact absurd h (by simp)

theorem configureAmcDefault_invalid {s : String}
    (h1 : s ≠ "ErrorModel") (h2 : s ≠ "ShannonModel") :
    configureAmcDefault s = Except.error ("Invalid amcSelectionModel: " ++ s) := by
  unfold configureAmcDefault
  rw [if_neg h1, if_neg h2]

theorem deviceStreamOffsets_ge (counts : List Nat) (start : Nat) :
    ∀ x ∈ deviceStreamOffsets counts start, start ≤ x := by
  induction counts generalizing start with
  | nil => simp [deviceStreamOffsets]
  | cons c rest ih =>
    intro x hx
    rw [deviceStreamOffsets, List.mem_cons] at hx
    rcases hx with hx | hx
    · exact hx ▸ le_refl start
    · exact le_trans (Nat.le_add_right start c) (ih (start + c) x hx)

theorem deviceStreamOffsets_le (counts : List Nat) (start : Nat) :
    ∀ x ∈ deviceStreamOffsets counts start, x ≤ start + counts.sum := by
  induction counts generalizing start with
  | nil => simp [deviceStreamOffsets]
  | cons c rest ih =>
    intro x hx
    rw [deviceStreamOffsets, List.mem_cons] at hx
    rcases hx with hx | hx
    · subst hx
      exact Nat.le_add_right x _
    · calc x ≤ start + c + rest.sum := ih (start + c) x hx
        _ = start + (c :: rest).sum := by simp [Nat.add_assoc]

theorem deviceStreamOffsets_chain (counts : List Nat) (start : Nat) :
    List.Chain' (· ≤ ·) (deviceStreamOffsets counts start) := by
  induction counts generalizing start with
  | nil => simp [deviceStreamOffsets]
  | cons c rest ih =>
    rw [deviceStreamOffsets]
    refine List.chain'_cons'.mpr ⟨?_, ih (start + c)⟩
    intro b hb
    have hbmem : b ∈ deviceStreamOffsets rest (start + c) := List.mem_of_mem_head? hb
    exact le_trans (Nat.le_add_right start c) (deviceStreamOffsets_ge rest (start + c) b hbmem)

/-! ## Claim theorems -/

/-- C1: For every `modelName` in `{ThreeGpp, NYU, TwoRay}` the channel-model
configuration step yields the phased-array bundle of the spec table —
isotropic antenna elements on both terminal and base-station sides,
terminal array dimensions 1×1, base-station array dimensions 4×8,
direct-path ideal beamforming, and shadowing enabled — and for
`modelName = Friis` it yields the parabolic antenna element on both sides
and the Friis propagation-loss factory, with no array dimensions and no
beamforming (the non-phased variant carries neither). -/
theorem c1_channel_dispatch (m cond : String)
    (hm : m = "ThreeGpp" ∨ m = "NYU" ∨ m = "TwoRay") :
    (∃ cfg : PhasedArrayConfig,
        configureChannel m cond = Except.ok (ChannelConfig.phased cfg)
        ∧ cfg.ueElement = AntennaElement.isotropic
        ∧ cfg.gnbElement = AntennaElement.isotropic
        ∧ cfg.ueNumRows = 1 ∧ cfg.ueNumCols = 1
        ∧ cfg.gnbNumRows = 4 ∧ cfg.gnbNumCols = 8
        ∧ cfg.beamforming = BeamformingMethod.directPath
        ∧ cfg.shadowingEnabled = true)
    ∧ (∃ nc : NonPhasedConfig,
        configureChannel "Friis" cond = Except.ok (ChannelConfig.nonPhased nc)
        ∧ nc.ueAntennaType = AntennaElement.parabolic
        ∧ nc.gnbAntennaType = AntennaElement.parabolic
        ∧ nc.propagationFactory = "ns3::FriisPropagationLossModel") :=
  ⟨⟨phasedBundle m cond, configureChannel_phased m cond hm,
      rfl, rfl, rfl, rfl, rfl, rfl, rfl, rfl⟩,
   ⟨friisBundle, configureChannel_friis cond, rfl, rfl, rfl⟩⟩

/-- Witness for C1 at `modelName = "NYU"`, `conditionName = "LOS"`. -/
theorem c1_channel_dispatch_witness :
    (∃ cfg : PhasedArrayConfig,
        configureChannel "NYU" "LOS" = Except.ok (ChannelConfig.phased cfg)
        ∧ cfg.ueElement = AntennaElement.isotropic
        ∧ cfg.gnbElement = AntennaElement.isotropic
        ∧ cfg.ueNumRows = 1 ∧ cfg.ueNumCols = 1
        ∧ cfg.gnbNumRows = 4 ∧ cfg.gnbNumCols = 8
        ∧ cfg.beamforming = BeamformingMethod.directPath
        ∧ cfg.shadowingEnabled = true)
    ∧ (∃ nc : NonPhasedConfig,
        configureChannel "Friis" "LOS" = Except.ok (ChannelConfig.nonPhased nc)
        ∧ nc.ueAntennaType = AntennaElement.parabolic
        ∧ nc.gnbAntennaType = AntennaElement.parabolic
        ∧ nc.propagationFactory = "ns3::FriisPropagationLossModel") :=
  c1_channel_dispatch "NYU" "LOS" (Or.inr (Or.inl rfl))

/-- C4: For every phased-array model in `{ThreeGpp, NYU, TwoRay}` the
channel-condition update period is set to 100 ms if and only if the
channel-condition model is `Default` or `Buildings`; for `LOS` and `NLOS`
it is left unset at the collaborator default. -/
theorem c4_update_period (m cond : String)
    (hm : m = "ThreeGpp" ∨ m = "NYU" ∨ m = "TwoRay") :
    ∃ cfg : PhasedArrayConfig,
      configureChannel m cond = Except.ok (ChannelConfig.phased cfg)
      ∧ (cfg.conditionUpdatePeriodMs = some 100 ↔
          (cond = "Default" ∨ cond = "Buildings"))
      ∧ ((cond = "LOS" ∨ cond = "NLOS") → cfg.conditionUpdatePeriodMs = none) := by
  refine ⟨phasedBundle m cond, configureChannel_phased m cond hm, ?_, ?_⟩
  · by_cases hc : cond = "Default" ∨ cond = "Buildings" <;>
      simp [phasedBundle, hc]
  · intro h
    have hne : ¬ (cond = "Default" ∨ cond = "Buildings") := by
      rcases h with h | h <;> subst h <;> decide
    simp [phasedBundle, hne]

/-- Witness for C4 at `modelName = "ThreeGpp"`, `conditionName = "LOS"`. -/
theorem c4_update_period_witness :
    ∃ cfg : PhasedArrayConfig,
      configureChannel "ThreeGpp" "LOS" = Except.ok (ChannelConfig.phased cfg)
      ∧ (cfg.conditionUpdatePeriodMs = some 100 ↔
          ("LOS" = "Default" ∨ "LOS" = "Buildings"))
      ∧ (("LOS" = "LOS" ∨ "LOS" = "NLOS") → cfg.conditionUpdatePeriodMs = none) :=
  c4_update_period "ThreeGpp" "LOS" (Or.inl rfl)

/-- C10: Whenever the per-device AMC configuration step is reached, the
earlier global dispatch has already accepted the selection string, so the
else-less fall-through (attribute left unset, `none`) is unreachable and
the per-device AMC model always equals the global default. -/
theorem c10_amc_attribute_matches_default (s : String) (d : AmcModel)
    (h : configureAmcDefault s = Except.ok d) :
    setGnbAmcAttribute s = some d := by
  rcases configureAmcDefault_ok_cases h with hs | hs <;> subst hs
  · have hd : d = AmcModel.errorModel := by
      unfold configureAmcDefault at h
      rw [if_pos rfl] at h
      exact (Except.ok.inj h).symm
    subst hd
    decide
  · have hd : d = AmcModel.shannonModel := by
      unfold configureAmcDefault at h
      rw [if_neg (by decide), if_pos rfl] at h
      exact (Except.ok.inj h).symm
    subst hd
    decide

/-- Witness for C10 at `amcSelectionModel = "ShannonModel"`. -/
theorem c10_amc_attribute_matches_default_witness :
    setGnbAmcAttribute "ShannonModel" = some AmcModel.shannonModel :=
  c10_amc_attribute_matches_default "ShannonModel" AmcModel.shannonModel rfl

/-- C7: After the mobility-assignment step, terminal `i` has velocity
`(speed, +speed, 0)` if `i` is even and `(speed, -speed, 0)` if `i` is odd,
where `speed = 1 + 3·i` m/s. -/
theorem c7_velocity_zigzag (i : Nat) :
    ueVelocity i = ⟨1 + 3 * (i : Rat),
      if i % 2 = 0 then 1 + 3 * (i : Rat) else -(1 + 3 * (i : Rat)), 0⟩ := by
  by_cases h : i % 2 = 0 <;> simp [ueVelocity, h, Vec3.mk.injEq] <;> ring

/-- C3: The topology stage yields exactly `N` terminals; after the
placement-override step terminal 0 is at `(10, 20, terminalHeight)` and
terminal `i > 0` is at `x = 50·i`, `y = 30` if `i` even else `-30`,
`z = terminalHeight`. -/
theorem c3_topology (n i : Nat) (hi : 0 < i) :
    (ueNodes n).length = n
    ∧ uePosition 0 = ⟨10, 20, utHeight⟩
    ∧ uePosition i = ⟨50 * (i : Rat),
        if i % 2 = 0 then 30 else -30, utHeight⟩ := by
  refine ⟨List.length_range n, rfl, ?_⟩
  unfold uePosition
  rw [if_pos hi]
  by_cases h : i % 2 = 0 <;> simp [h, Vec3.mk.injEq, utHeight]

/-- Witness for C3 at `ueNum = 4`, terminal index 3. -/
theorem c3_topology_witness :
    (ueNodes 4).length = 4
    ∧ uePosition 0 = ⟨10, 20, utHeight⟩
    ∧ uePosition 3 = ⟨50 * ((3 : Nat) : Rat),
        if 3 % 2 = 0 then 30 else -30, utHeight⟩ :=
  c3_topology 4 3 (by decide)

/-- C2: For every `channelModel` outside `{ThreeGpp, NYU, TwoRay, Friis}`
and every `amcSelectionModel` outside `{ErrorModel, ShannonModel}`, the
program terminates fatally during setup (it never silently falls back to a
default model), creates no network device and never reaches the simulation
run. -/
theorem c2_invalid_model_fatal (registry : List String) (fg fu : String → Nat → Nat)
    (p : Params)
    (h : p.channelModel ∉ (["ThreeGpp", "NYU", "TwoRay", "Friis"] : List String)
       ∨ p.amcSelectionModel ∉ (["ErrorModel", "ShannonModel"] : List String)) :
    isFatal (runProgram registry fg fu p).2 = true
    ∧ (runProgram registry fg fu p).1.countP Event.isDevicesInstalled = 0
    ∧ Event.running ∉ (runProgram registry fg fu p).1 := by
  rcases hL : lookupTypeId registry p.errorModelType with e | u
  · simp [runProgram, hL, isFatal]
  rcases hA : configureAmcDefault p.amcSelectionModel with e | amc
  · simp [runProgram, hL, hA, isFatal]
  have hmem : p.amcSelectionModel = "ErrorModel" ∨ p.amcSelectionModel = "ShannonModel" :=
    configureAmcDefault_ok_cases hA
  have hch : p.channelModel ∉ (["ThreeGpp", "NYU", "TwoRay", "Friis"] : List String) := by
    rcases h with h | h
    · exact h
    · exfalso
      apply h
      rcases hmem with hm | hm <;> simp [hm]
  have hC := configureChannel_invalid p.channelModel p.channelConditionModel hch
  simp [runProgram, hL, hA, hC, isFatal, Event.isDevicesInstalled]

/-- Witness for C2 at `channelModel = "Rayleigh"` with the default
remaining parameters and a one-stream-per-device collaborator. -/
theorem c2_invalid_model_fatal_witness :
    isFatal (runProgram ["ns3::NrEesmCcT1"] unitStreams unitStreams badChannelParams).2 = true
    ∧ (runProgram ["ns3::NrEesmCcT1"] unitStreams unitStreams
        badChannelParams).1.countP Event.isDevicesInstalled = 0
    ∧ Event.running ∉ (runProgram ["ns3::NrEesmCcT1"] unitStreams unitStreams
        badChannelParams).1 :=
  c2_invalid_model_fatal ["ns3::NrEesmCcT1"] unitStreams unitStreams badChannelParams
    (Or.inl (by decide))

/-- C8: If setup raises any fatal configuration error (unresolvable
error-model identifier, unsupported AMC-selection mode, or unsupported
channel model), the `Running` state is never entered and no trace output is
ever enabled. -/
theorem c8_fatal_setup_never_runs (registry : List String) (fg fu : String → Nat → Nat)
    (p : Params) (h : isFatal (runProgram registry fg fu p).2 = true) :
    Event.running ∉ (runProgram registry fg fu p).1
    ∧ Event.tracesEnabled ∉ (runProgram registry fg fu p).1 := by
  rcases hL : lookupTypeId registry p.errorModelType with e | u
  · simp [runProgram, hL]
  rcases hA : configureAmcDefault p.amcSelectionModel with e | amc
  · simp [runProgram, hL, hA]
  rcases hC : configureChannel p.channelModel p.channelConditionModel with e | cc
  · simp [runProgram, hL, hA, hC]
  · exfalso
    simp [runProgram, hL, hA, hC, isFatal] at h

/-- Witness for C8: an empty TypeId registry makes the error-model lookup
fatal at the default parameters. -/
theorem c8_fatal_setup_never_runs_witness :
    Event.running ∉ (runProgram [] unitStreams unitStreams defaultParams).1
    ∧ Event.tracesEnabled ∉ (runProgram [] unitStreams unitStreams defaultParams).1 :=
  c8_fatal_setup_never_runs [] unitStreams unitStreams defaultParams (by decide)

/-- C9: Over the setup phase, each terminal's position is mutated exactly
once after creation (in the placement-override loop) and each terminal's
velocity is assigned exactly once (in the mobility loop). -/
theorem c9_mobility_mutations_once (n i : Nat) (h : i < n) :
    (mobilitySetupEvents n).countP (isSetPositionOf i) = 1
    ∧ (mobilitySetupEvents n).countP (isSetVelocityOf i) = 1 := by
  have hone : (List.range n).countP (fun j => j == i) = 1 := by
    have := List.count_eq_one_of_mem (List.nodup_range n) (List.mem_range.mpr h)
    simpa [List.count] using this
  constructor
  · unfold mobilitySetupEvents placementOverrideEvents velocityAssignEvents ueNodes
    rw [List.countP_append, List.countP_map, List.countP_map]
    have h1 : (isSetPositionOf i ∘ fun j => MobEvent.setPosition j (uePosition j))
        = fun j => j == i := rfl
    have h2 : (isSetPositionOf i ∘ fun j => MobEvent.setVelocity j (ueVelocity j))
        = fun _ => false := rfl
    rw [h1, h2, hone]
    simp
  · unfold mobilitySetupEvents placementOverrideEvents velocityAssignEvents ueNodes
    rw [List.countP_append, List.countP_map, List.countP_map]
    have h1 : (isSetVelocityOf i ∘ fun j => MobEvent.setPosition j (uePosition j))
        = fun _ => false := rfl
    have h2 : (isSetVelocityOf i ∘ fun j => MobEvent.setVelocity j (ueVelocity j))
        = fun j => j == i := rfl
    rw [h1, h2, hone]
    simp

/-- Witness for C9 at `ueNum = 4`, terminal index 1. -/
theorem c9_mobility_mutations_once_witness :
    (mobilitySetupEvents 4).countP (isSetPositionOf 1) = 1
    ∧ (mobilitySetupEvents 4).countP (isSetVelocityOf 1) = 1 :=
  c9_mobility_mutations_once 4 1 (by decide)

/-- C6: Two executions with identical seed, run number, ueNum, gNbNum and
channel model have identical random-stream assignments — base-station
device offsets first (starting at 1), then terminal device offsets, the
whole sequence monotonically increasing — and any deterministic
flow-statistics collaborator reading the seeded configuration and the
stream assignment produces identical results. -/
theorem c6_determinism (fg fu : String → Nat → Nat)
    (stats : Nat → Nat → String → List Nat → List Nat → List Nat)
    (p q : Params)
    (hseed : p.rngSeed = q.rngSeed) (hrun : p.rngRun = q.rngRun)
    (hue : p.numUes = q.numUes) (hgnb : p.numGnbs = q.numGnbs)
    (hm : p.channelModel = q.channelModel) :
    gnbStreamOffsets fg p = gnbStreamOffsets fg q
    ∧ ueStreamOffsets fg fu p = ueStreamOffsets fg fu q
    ∧ List.Chain' (· ≤ ·) (gnbStreamOffsets fg p ++ ueStreamOffsets fg fu p)
    ∧ stats p.rngSeed p.rngRun p.channelModel
        (gnbStreamOffsets fg p) (ueStreamOffsets fg fu p)
      = stats q.rngSeed q.rngRun q.channelModel
          (gnbStreamOffsets fg q) (ueStreamOffsets fg fu q) := by
  have hg : gnbStreamCounts fg p = gnbStreamCounts fg q := by
    unfold gnbStreamCounts
    rw [hgnb, hm]
  have hu : ueStreamCounts fu p = ueStreamCounts fu q := by
    unfold ueStreamCounts
    rw [hue, hm]
  have hgo : gnbStreamOffsets fg p = gnbStreamOffsets fg q := by
    unfold gnbStreamOffsets
    rw [hg]
  have huo : ueStreamOffsets fg fu p = ueStreamOffsets fg fu q := by
    unfold ueStreamOffsets
    rw [hu, hg]
  refine ⟨hgo, huo, ?_, by rw [hseed, hrun, hm, hgo, huo]⟩
  rw [List.chain'_append]
  refine ⟨deviceStreamOffsets_chain _ _, deviceStreamOffsets_chain _ _, ?_⟩
  intro x hx y hy
  have hxm : x ∈ gnbStreamOffsets fg p := List.mem_of_mem_getLast? hx
  have hym : y ∈ ueStreamOffsets fg fu p := List.mem_of_mem_head? hy
  have h1 : x ≤ 1 + (gnbStreamCounts fg p).sum :=
    deviceStreamOffsets_le (gnbStreamCounts fg p) 1 x hxm
  have h2 : 1 + (gnbStreamCounts fg p).sum ≤ y :=
    deviceStreamOffsets_ge (ueStreamCounts fu p) (1 + (gnbStreamCounts fg p).sum) y hym
  exact le_trans h1 h2

/-- Witness for C6 at the default parameters with a one-stream-per-device
collaborator and a constant statistics collaborator. -/
theorem c6_determinism_witness :
    gnbStreamOffsets unitStreams defaultParams
      = gnbStreamOffsets unitStreams defaultParams
    ∧ ueStreamOffsets unitStreams unitStreams defaultParams
      = ueStreamOffsets unitStreams unitStreams defaultParams
    ∧ List.Chain' (· ≤ ·) (gnbStreamOffsets unitStreams defaultParams
        ++ ueStreamOffsets unitStreams unitStreams defaultParams)
    ∧ statsStub defaultParams.rngSeed defaultParams.rngRun defaultParams.channelModel
        (gnbStreamOffsets unitStreams defaultParams)
        (ueStreamOffsets unitStreams unitStreams defaultParams)
      = statsStub defaultParams.rngSeed defaultParams.rngRun defaultParams.channelModel
          (gnbStreamOffsets unitStreams defaultParams)
          (ueStreamOffsets unitStreams unitStreams defaultParams) :=
  c6_determinism unitStreams unitStreams statsStub defaultParams defaultParams
    rfl rfl rfl rfl rfl

/-- C5: The eight flags registered before `cmd.Parse` are optional with the
stated defaults and take effect when supplied; but `errorModelType` and
`amcSelectionModel` are registered with the parser only after `cmd.Parse`
has already run, so supplying either of them is rejected as an invalid
argument instead of taking effect — contradicting the claim (and the
code's own `AddValue` help text). -/
theorem c5_cli_registration_order :
    defaultParams.rngSeed = 1
    ∧ defaultParams.rngRun = 1
    ∧ defaultParams.channelModel = "ThreeGpp"
    ∧ defaultParams.channelConditionModel = "Default"
    ∧ defaultParams.numUes = 4
    ∧ defaultParams.numGnbs = 1
    ∧ defaultParams.frequency = 30500000000
    ∧ defaultParams.logging = true
    ∧ defaultParams.errorModelType = "ns3::NrEesmCcT1"
    ∧ defaultParams.amcSelectionModel = "ErrorModel"
    ∧ parseCli [] = Except.ok defaultParams
    ∧ parseCli [CliArg.seed 7] = Except.ok { defaultParams with rngSeed := 7 }
    ∧ parseCli [CliArg.run 3] = Except.ok { defaultParams with rngRun := 3 }
    ∧ parseCli [CliArg.channelModel "Friis"]
        = Except.ok { defaultParams with channelModel := "Friis" }
    ∧ parseCli [CliArg.channelConditionModel "LOS"]
        = Except.ok { defaultParams with channelConditionModel := "LOS" }
    ∧ parseCli [CliArg.ueNum 2] = Except.ok { defaultParams with numUes := 2 }
    ∧ parseCli [CliArg.gNbNum 2] = Except.ok { defaultParams with numGnbs := 2 }
    ∧ parseCli [CliArg.frequency 28000000000]
        = Except.ok { defaultParams with frequency := 28000000000 }
    ∧ parseCli [CliArg.logging false] = Except.ok { defaultParams with logging := false }
    ∧ parseCli [CliArg.errorModelType "ns3::NrLteMiErrorModel"]
        = Except.error "Invalid argument: errorModelType"
    ∧ parseCli [CliArg.amcSelectionModel "ShannonModel"]
        = Except.error "Invalid argument: amcSelectionModel" :=
  ⟨rfl, rfl, rfl, rfl, rfl, rfl, rfl, rfl, rfl, rfl, rfl, rfl, rfl, rfl, rfl, rfl,
   rfl, rfl, rfl, rfl, rfl⟩

end GsocNrChannelModels
